import Mathlib

/-!
Verification of the Catalog Mirror & Usage Miner of `data-copilot`.

This file shallowly embeds the Python modules
`src/querylog/create_table_structure.py`, `src/querylog/add_usage_data.py`
and `src/querylog/run_query.py` into Lean 4 and proves (or refutes)
specification claims about them.

File contents are modelled as `Str := List Char`; Python strings are code
point sequences, so this is faithful for the operations used by the code
(`strip`, `startswith`, slicing, concatenation, comparison).
-/

/-- Character-list model of Python strings. -/
abbrev Str := List Char

/-- Whitespace set of Python's `str.strip()` (ASCII part; the code never
produces other whitespace). -/
def pyIsSpace (c : Char) : Bool :=
  c = ' ' || c = '\t' || c = '\n' || c = '\r' || c = '\x0b' || c = '\x0c'

/-- Leading-whitespace removal, as in Python `str.lstrip()`. -/
def trimLeft (s : Str) : Str := s.dropWhile pyIsSpace

/-- Trailing-whitespace removal, as in Python `str.rstrip()`. -/
def trimRight (s : Str) : Str := (s.reverse.dropWhile pyIsSpace).reverse

/-- Python `str.strip()`: remove leading and trailing whitespace. -/
def pyStrip (s : Str) : Str := trimRight (trimLeft s)

/-- Reserved error sentinel that a failed preview fetch writes at the start
of `preview.sql` (`get_table_preview`, line 175). -/
def errorSentinel : Str := "-- Error retrieving preview".toList

/-- Embedding of `should_update_preview` (create_table_structure.py,
lines 178-220).  Filesystem reads are passed as the file contents:
`ddlContent`/`previewContent` are `none` when the file is absent.
The function reads the preview file, strips it, and tests the sentinel
prefix; then, if `ddl.sql` exists, compares its stripped content with the
stripped current DDL. -/
def should_update_preview (ddlContent : Option Str) (previewContent : Option Str)
    (current_ddl : Str) : Bool :=
  match previewContent with
  | none => true
  | some p =>
    if errorSentinel.isPrefixOf (pyStrip p) then true
    else
      match ddlContent with
      | some d => if pyStrip d ≠ pyStrip current_ddl then true else false
      | none => false

/-- Embedding of `_format_preview_value` (create_table_structure.py,
lines 95-119).  A Python value is modelled by its `str()` form, with
`none` standing for Python `None`. -/
def format_preview_value (value : Option Str) (field_type : Str)
    (max_length : Nat) : Str :=
  match value with
  | none => "NULL".toList
  | some str_value =>
    if field_type = "GEOGRAPHY".toList ∨ field_type = "GEOMETRY".toList
        ∨ str_value.length > max_length then
      str_value.take max_length ++ "... [TRUNCATED]".toList
    else
      str_value

/-- Column rendering of the format string `"{!s:<20} "` applied to one
value: left-justify to width 20, then one literal space. -/
def padColumn (s : Str) : Str :=
  s ++ List.replicate (20 - s.length) ' ' ++ [' ']

/-- One body line of the preview: `"-- "` followed by every field value of
the row formatted by `_format_preview_value` and padded. -/
def previewRowLine (field_types : List Str) (row : List (Option Str)) : Str :=
  "-- ".toList ++ (List.zip row field_types).foldr
    (fun vt acc => padColumn (format_preview_value vt.1 vt.2 100) ++ acc) []

/-- Body lines of the preview artifact: one line per fetched row
(create_table_structure.py, lines 164-170). -/
def previewDataLines (field_types : List Str) (rows : List (List (Option Str))) :
    List Str :=
  rows.map (previewRowLine field_types)

/-- Header line declaring the number of shown rows
(`f"-- Showing first {len(rows)} rows"`). -/
def previewShownLine (rows : List (List (Option Str))) : Str :=
  "-- Showing first ".toList ++ Nat.toDigits 10 rows.length ++ " rows".toList

/-- Fixed content written when the table has no rows
(create_table_structure.py, lines 144-145). -/
def noDataContent : Str := "-- No data available in this table\n".toList

/-- Join lines with newlines and append a final newline, as
`"\n".join(preview_lines) + "\n"`. -/
def joinLines (lines : List Str) : Str :=
  (List.intercalate ['\n'] lines) ++ ['\n']

/-- Embedding of `get_table_preview` (create_table_structure.py,
lines 122-175) on the data it received from the remote API: the table id,
the table's total row count, the schema (field name and type per column)
and the fetched sample rows.  The `zip(..., strict=True)` raises when a
row's width differs from the schema's, which the surrounding `except`
turns into sentinel content; `excText` is the rendering of that
exception. -/
def get_table_preview (table_id : Str) (num_rows : Nat)
    (schema : List (Str × Str)) (rows : List (List (Option Str)))
    (excText : Str) : Str :=
  if rows.isEmpty then noDataContent
  else if rows.all (fun r => r.length = schema.length) then
    joinLines
      (["-- Preview of table: ".toList ++ table_id,
        "-- Total rows in table: ".toList ++ Nat.toDigits 10 num_rows,
        previewShownLine rows,
        [],
        "-- ".toList ++ (schema.map Prod.fst).foldr (fun n acc => padColumn n ++ acc) [],
        "-- ".toList ++ List.replicate (20 * schema.length) '-']
       ++ previewDataLines (schema.map Prod.snd) rows)
  else
    errorSentinel ++ " for ".toList ++ table_id ++ ": ".toList ++ excText ++ ['\n']

/-- Identity of a table directory under the mirror root:
`catalog/schema/wildcard_table_name` (create_table_structure.py, line 361). -/
structure TableKey where
  catalog : Str
  schema : Str
  wildcardName : Str
deriving DecidableEq

/-- Contents of a single table directory: the two artifact files, `none`
when absent. -/
structure TableDir where
  ddl : Option Str
  preview : Option Str
deriving DecidableEq

/-- Mirror filesystem: one directory per table key. -/
def MirrorFS := TableKey → TableDir

/-- Empty mirror directory. -/
def emptyDir : TableDir := ⟨none, none⟩

/-- Update one table directory of the mirror. -/
def updateFS (fs : MirrorFS) (k : TableKey) (d : TableDir) : MirrorFS :=
  fun k' => if k' = k then d else fs k'

/-- One row of the catalog DataFrame returned by
`fetch_tables_from_bigquery`: raw field values before any stripping. -/
structure CatalogRow where
  table_catalog : Str
  table_schema : Str
  table_name : Str
  wildcard_table_name : Str
  ddl : Str

/-- Directory key of a catalog row, after the `str(...).strip()` applied to
each extracted field (create_table_structure.py, lines 343-346). -/
def keyOf (r : CatalogRow) : TableKey :=
  ⟨pyStrip r.table_catalog, pyStrip r.table_schema, pyStrip r.wildcard_table_name⟩

/-- Processing of one catalog row by `create_table_structure`
(lines 340-382): write the stripped DDL to `ddl.sql`, then — with the DDL
file now holding exactly that freshly written content — call
`should_update_preview` and, when previews are enabled and it returns
true, emit a preview-fetch task.  Returns the new filesystem and the
optional task. -/
def syncStep (enable_preview : Bool) (fs : MirrorFS) (r : CatalogRow) :
    MirrorFS × Option TableKey :=
  let d := pyStrip r.ddl
  let k := keyOf r
  let dir := fs k
  let fs' := updateFS fs k ⟨some d, dir.preview⟩
  let task :=
    if enable_preview ∧ should_update_preview (some d) dir.preview d then
      some k
    else
      none
  (fs', task)

/-- The per-row loop of `create_table_structure` (lines 340-386), threading
the filesystem and accumulating the preview-task queue in row order. -/
def syncLoop (enable_preview : Bool) (fs : MirrorFS) :
    List CatalogRow → MirrorFS × List TableKey
  | [] => (fs, [])
  | r :: rs =>
    let st := syncStep enable_preview fs r
    let rest := syncLoop enable_preview st.1 rs
    (rest.1, match st.2 with | some k => k :: rest.2 | none => rest.2)

/-- Preview-pool phase (lines 388-407): each enqueued task fetches preview
content and writes it to the task's `preview.sql`; `fetch k` is the
content `fetch_and_save_preview` writes for table `k` (the rendering of
`get_table_preview`, sentinel content included on failure). -/
def applyPreviewTasks (fetch : TableKey → Str) (fs : MirrorFS) :
    List TableKey → MirrorFS
  | [] => fs
  | k :: ks =>
    applyPreviewTasks fetch (updateFS fs k ⟨(fs k).ddl, some (fetch k)⟩) ks

/-- Outcome of the remote catalog fetch in `create_table_structure`
(lines 306-313): either the full row list, or a failure
(`fetch_tables_from_bigquery` re-raises any remote error). -/
inductive FetchOutcome where
  | failure
  | success (rows : List CatalogRow)

/-- Result of one build-mirror invocation: final filesystem, the enqueued
preview-task queue, and the process exit code. -/
structure MirrorResult where
  fs : MirrorFS
  tasks : List TableKey
  exitCode : Nat

/-- Embedding of the build-mirror entry point
(`create_table_structure` lines 294-410 plus `main` lines 413-475): on
fetch failure the error is printed and `create_table_structure` returns,
after which `main` returns 0 — no filesystem mutation happens; on success
the synchronizer loop runs and then the preview pool. `main` always
returns 0 on every path that returns. -/
def buildMirror (outcome : FetchOutcome) (enable_preview : Bool)
    (fs : MirrorFS) (fetch : TableKey → Str) : MirrorResult :=
  match outcome with
  | .failure => ⟨fs, [], 0⟩
  | .success rows =>
    if rows.isEmpty then ⟨fs, [], 0⟩
    else
      let st := syncLoop enable_preview fs rows
      ⟨applyPreviewTasks fetch st.1 st.2, st.2, 0⟩

/-- Boolean test that a directory holds a preview artifact whose stripped
content does not begin with the error sentinel. -/
def previewOkNonSentinel (d : TableDir) : Bool :=
  match d.preview with
  | none => false
  | some p => !(errorSentinel.isPrefixOf (pyStrip p))

/-- Lexicographic code-point comparison of Python strings (`<=`). -/
def lexLe : Str → Str → Bool
  | [], _ => true
  | _ :: _, [] => false
  | a :: as, b :: bs => if a < b then true else if a = b then lexLe as bs else false

/-- Decimal rendering of a Python integer. -/
def intDigits (n : ℤ) : Str :=
  if n < 0 then '-' :: Nat.toDigits 10 (-n).toNat else Nat.toDigits 10 n.toNat

/-- One usage record handed to `process_usage_data` (the dictionaries built
by `query_information_schema_jobs`, add_usage_data.py lines 402-411).
`total_queries = none` models a dictionary without that key. -/
structure UsageRec where
  table_catalog : Str
  table_schema : Str
  table_name : Str
  top_queries : List Str
  total_queries : Option ℤ
deriving DecidableEq

/-- Leaderboard entry built by `create_high_usage_tables_list`
(add_usage_data.py lines 80-88); name fields are taken verbatim
(no stripping there). -/
structure TableInfo where
  table_catalog : Str
  table_schema : Str
  table_name : Str
  total_queries : ℤ
  full_table_name : Str
deriving DecidableEq

/-- Conversion of a record carrying `total_queries = n` into its
leaderboard entry. -/
def mkTableInfo (r : UsageRec) (n : ℤ) : TableInfo :=
  ⟨r.table_catalog, r.table_schema, r.table_name, n,
   r.table_catalog ++ ['.'] ++ r.table_schema ++ ['.'] ++ r.table_name⟩

/-- Comparison realised by Python's stable sort with key
`(-total_queries, full_table_name)` (add_usage_data.py line 93):
larger count first, ties by ascending full table name. -/
def leaderboardLe (a b : TableInfo) : Bool :=
  decide (b.total_queries < a.total_queries) ||
    (decide (a.total_queries = b.total_queries) && lexLe a.full_table_name b.full_table_name)

/-- Embedding of `create_high_usage_tables_list` (add_usage_data.py
lines 65-94): keep the records that carry a `total_queries` field, build
their entries, and sort by `(-total_queries, full_table_name)`. -/
def create_high_usage_tables_list (data : List UsageRec) : List TableInfo :=
  (data.filterMap (fun r => r.total_queries.map (mkTableInfo r))).mergeSort leaderboardLe

/-- Rank number rendered by `f"{i:2d}"`: right-aligned, minimum width 2. -/
def rankWidth2 (i : Nat) : Str :=
  if i < 10 then ' ' :: Nat.toDigits 10 i else Nat.toDigits 10 i

/-- One rendered leaderboard line
(`f"{i:2d}. **{full_table_name}** - {total_queries} queries"`). -/
def leaderboardEntryLine (i : Nat) (t : TableInfo) : Str :=
  rankWidth2 i ++ ". **".toList ++ t.full_table_name ++ "** - ".toList
    ++ intDigits t.total_queries ++ " queries".toList

/-- Entries actually listed in the leaderboard document:
`high_usage_tables[:200]` (add_usage_data.py line 131). -/
def leaderboardDisplayed (huts : List TableInfo) : List TableInfo :=
  huts.take 200

/-- Numbered rendering of displayed entries, `enumerate(..., 1)`. -/
def leaderboardNumberLines (i : Nat) : List TableInfo → List Str
  | [] => []
  | t :: ts => leaderboardEntryLine i t :: leaderboardNumberLines (i + 1) ts

/-- Embedding of `save_high_usage_tables_list` (add_usage_data.py
lines 97-150) as the list of markdown lines of the written document. -/
def save_high_usage_tables_list (huts : List TableInfo) : List Str :=
  ["# High Usage Tables - Query Analysis".toList, []] ++
    (if huts.isEmpty then []
     else
       ["## Top 200 Most Used Tables".toList, []]
         ++ leaderboardNumberLines 1 (leaderboardDisplayed huts) ++ [[]])

/-- Block of lines emitted by `format_usage_queries` for query number `i`. -/
def usageQueryBlock (i : Nat) (q : Str) : List Str :=
  ["-- Query ".toList ++ Nat.toDigits 10 i ++ [':'],
   "-- ".toList ++ List.replicate 50 '-',
   [],
   pyStrip q,
   [],
   "-- ".toList ++ List.replicate 80 '=',
   []]

/-- Numbered query blocks, `enumerate(queries, 1)`. -/
def usageQueryBlocks (i : Nat) : List Str → List Str
  | [] => []
  | q :: qs => usageQueryBlock i q ++ usageQueryBlocks (i + 1) qs

/-- Embedding of `format_usage_queries` (add_usage_data.py lines 32-62). -/
def format_usage_queries (queries : List Str) : Str :=
  if queries.isEmpty then "-- No usage queries found for this table\n".toList
  else
    List.intercalate ['\n']
      (["-- Usage queries for this table".toList,
        "-- Total queries found: ".toList ++ Nat.toDigits 10 queries.length,
        []] ++ usageQueryBlocks 1 queries)

/-- Python `str.replace`: replace every non-overlapping occurrence of the
(non-empty) pattern, scanning left to right. -/
def replaceAll (s pat sub : Str) : Str :=
  match s with
  | [] => []
  | c :: rest =>
    if pat ≠ [] ∧ pat.isPrefixOf (c :: rest) then
      sub ++ replaceAll ((c :: rest).drop pat.length) pat sub
    else
      c :: replaceAll rest pat sub
termination_by s.length
decreasing_by
  · simp only [List.length_drop, List.length_cons]
    have hp : pat.length ≥ 1 := by
      rcases pat with _ | ⟨x, xs⟩
      · simp at *
      · simp
    omega
  · simp

/-- Effective total announced in a usage file: the record's
`total_queries` or, when the key is absent, `len(queries)`
(add_usage_data.py line 227). -/
def effectiveTotal (r : UsageRec) : ℤ :=
  match r.total_queries with
  | some n => n
  | none => (r.top_queries.length : ℤ)

/-- Content of the written `usage.sql` (add_usage_data.py lines 241-251):
the formatted queries, with the count header rewritten when
`total_queries` is truthy (non-zero). -/
def usageFileContent (r : UsageRec) : Str :=
  let qs := r.top_queries
  let base := format_usage_queries qs
  if effectiveTotal r ≠ 0 then
    replaceAll base
      ("-- Total queries found: ".toList ++ Nat.toDigits 10 qs.length)
      ("-- Total queries found: ".toList ++ intDigits (effectiveTotal r)
        ++ " (showing top ".toList ++ Nat.toDigits 10 qs.length ++ [')'])
  else base

/-- Directory key used by the usage loop
(`base_path / catalog / schema / table_name`, add_usage_data.py line 230),
fields stripped as in lines 214-216. -/
def dirKeyOfRec (r : UsageRec) : TableKey :=
  ⟨pyStrip r.table_catalog, pyStrip r.table_schema, pyStrip r.table_name⟩

/-- Result of one `process_usage_data` invocation: the leaderboard
document's lines and the per-table `usage.sql` writes. -/
structure UsageRunResult where
  leaderboardDoc : List Str
  writes : List (TableKey × Str)
deriving DecidableEq

/-- Embedding of `process_usage_data` (add_usage_data.py lines 156-268):
the leaderboard is built from all records and saved before any
directory-existence check; per-record `usage.sql` writes happen only when
the base directory and the record's table directory exist. -/
def process_usage_data (dirExists : TableKey → Bool) (baseExists : Bool)
    (data : List UsageRec) : UsageRunResult :=
  let doc := save_high_usage_tables_list (create_high_usage_tables_list data)
  if baseExists then
    ⟨doc, data.filterMap (fun r =>
      if dirExists (dirKeyOfRec r) then some (dirKeyOfRec r, usageFileContent r)
      else none)⟩
  else ⟨doc, []⟩

/-- Data volume derived from the dry run (run_query.py line 69):
`bytes_processed / 1024**3`, in GB. -/
def gb_processed (bytes_processed : Nat) : ℚ :=
  (bytes_processed : ℚ) / 2 ^ 30

/-- Estimated monetary cost (run_query.py line 72):
`bytes / 1024**4 * 6.25` dollars. -/
def estimated_cost_usd (bytes_processed : Nat) : ℚ :=
  (bytes_processed : ℚ) / 2 ^ 40 * (25 / 4)

/-- Interpretation of one typed confirmation line
(run_query.py lines 106-116): strip, lowercase, then accept `y`/`yes`,
decline `n`/`no`/empty, and otherwise re-prompt. -/
def interpretResponse (s : Str) : Option Bool :=
  let t := (pyStrip s).map Char.toLower
  if t = ['y'] ∨ t = "yes".toList then some true
  else if t = ['n'] ∨ t = "no".toList ∨ t = [] then some false
  else none

/-- The confirmation `while` loop: the first valid answer decides; `none`
when no answer in the transcript is valid (the loop would keep asking). -/
def firstValidResponse : List Str → Option Bool
  | [] => none
  | s :: rest =>
    match interpretResponse s with
    | some b => some b
    | none => firstValidResponse rest

/-- Embedding of `ask_user_confirmation` (run_query.py lines 89-119) over a
transcript of typed responses.  First component: whether the confirmation
gate was triggered (the warning/prompt branch, entered exactly when
`gb_processed > 100`); second: the decision (`some true` immediately when
within limits). -/
def ask_user_confirmation (gb : ℚ) (responses : List Str) : Bool × Option Bool :=
  if gb > 100 then (true, firstValidResponse responses)
  else (false, some true)

/-- Observable outcome of one `run_query.py` invocation. -/
structure QueryRunOutcome where
  exitCode : Nat
  executed : Bool
  resultsWritten : Bool
  statsWritten : Bool
deriving DecidableEq

/-- Embedding of the gate-relevant control flow of `run_query.main`
(run_query.py lines 390-429) on the successful-execution path: unless
`--force` is given, the dry run estimates `gb_processed bytes` and
`ask_user_confirmation` runs; a declined confirmation reaches
`sys.exit(0)` before any execution, result writing, or stats writing.
`none` models a transcript in which the prompt never receives a valid
answer (the loop blocks). -/
def runQueryMain (force : Bool) (bytes_processed : Nat) (hasOutputFile : Bool)
    (responses : List Str) : Option QueryRunOutcome :=
  if force then some ⟨0, true, hasOutputFile, true⟩
  else
    match (ask_user_confirmation (gb_processed bytes_processed) responses).2 with
    | none => none
    | some true => some ⟨0, true, hasOutputFile, true⟩
    | some false => some ⟨0, false, false, false⟩

/-- Totality of the lexicographic comparison on strings. -/
theorem lexLe_total (s t : Str) : lexLe s t = true ∨ lexLe t s = true := by
  induction s generalizing t with
  | nil => left; rfl
  | cons a as ih =>
    cases t with
    | nil => right; rfl
    | cons b bs =>
      rcases lt_trichotomy a b with hlt | heq | hgt
      · left; simp [lexLe, hlt]
      · subst heq
        rcases ih bs with h | h
        · left; simp [lexLe, h]
        · right; simp [lexLe, h]
      · right; simp [lexLe, hgt]

/-- Transitivity of the lexicographic comparison on strings. -/
theorem lexLe_trans (s t u : Str) (h1 : lexLe s t = true) (h2 : lexLe t u = true) :
    lexLe s u = true := by
  induction s generalizing t u with
  | nil => rfl
  | cons a as ih =>
    cases t with
    | nil => simp [lexLe] at h1
    | cons b bs =>
      cases u with
      | nil => simp [lexLe] at h2
      | cons c cs =>
        simp only [lexLe] at h1 h2 ⊢
        rcases lt_trichotomy a b with hab | hab | hab
        · rcases lt_trichotomy b c with hbc | hbc | hbc
          · simp [lt_trans hab hbc]
          · subst hbc; simp [hab]
          · simp [lexLe, hbc, not_lt_of_lt hbc, ne_of_gt hbc] at h2
        · subst hab
          rcases lt_trichotomy a c with hac | hac | hac
          · simp [hac]
          · subst hac
            simp only [lt_irrefl, if_false, if_pos rfl] at h1 h2 ⊢
            exact ih _ _ h1 h2
          · simp [not_lt_of_lt hac, ne_of_gt hac] at h2
        · simp [not_lt_of_lt hab, ne_of_gt hab] at h1

/-- Antisymmetry of the lexicographic comparison on strings. -/
theorem lexLe_antisymm (s t : Str) (h1 : lexLe s t = true) (h2 : lexLe t s = true) :
    s = t := by
  induction s generalizing t with
  | nil => cases t with
    | nil => rfl
    | cons b bs => simp [lexLe] at h2
  | cons a as ih =>
    cases t with
    | nil => simp [lexLe] at h1
    | cons b bs =>
      simp only [lexLe] at h1 h2
      rcases lt_trichotomy a b with hab | hab | hab
      · simp [not_lt_of_lt hab, ne_of_gt hab] at h2
      · subst hab
        simp only [lt_irrefl, if_false, if_pos rfl] at h1 h2
        rw [ih _ h1 h2]
      · simp [not_lt_of_lt hab, ne_of_gt hab] at h1

/-- Content that begins with the error sentinel still begins with it after
`strip()`: the sentinel starts and ends with non-whitespace characters, so
stripping cannot eat into it. -/
theorem sentinel_prefix_pyStrip {s : Str} (h : errorSentinel <+: s) :
    errorSentinel.isPrefixOf (pyStrip s) = true := by
  obtain ⟨t, rfl⟩ := h
  have hdrop : List.dropWhile pyIsSpace errorSentinel = errorSentinel := by decide
  have hrev : List.dropWhile pyIsSpace errorSentinel.reverse = errorSentinel.reverse := by
    decide
  have hL : trimLeft (errorSentinel ++ t) = errorSentinel ++ t := by
    unfold trimLeft
    rw [List.dropWhile_append, hdrop]
    simp [show errorSentinel.isEmpty = false from by decide]
  unfold pyStrip
  rw [hL]
  unfold trimRight
  rw [List.reverse_append, List.dropWhile_append]
  by_cases hc : (List.dropWhile pyIsSpace t.reverse).isEmpty = true
  · rw [if_pos hc, hrev]
    simp [List.isPrefixOf_iff_prefix]
  · rw [if_neg hc, List.reverse_append, List.reverse_reverse]
    rw [List.isPrefixOf_iff_prefix]
    exact ⟨(List.dropWhile pyIsSpace t.reverse).reverse, rfl⟩

/-- Processing one catalog row never changes any preview file: the
synchronizer loop only writes `ddl.sql`; previews are written later by
the pool. -/
theorem syncStep_preview (ep : Bool) (fs : MirrorFS) (r : CatalogRow) (k : TableKey) :
    (((syncStep ep fs r).1) k).preview = (fs k).preview := by
  unfold syncStep updateFS
  by_cases h : k = keyOf r
  · simp [h]
  · simp [h]

/-- When every row's directory already holds a preview whose stripped
content does not begin with the error sentinel, the synchronizer loop
enqueues no preview-fetch task: the `ddl.sql` just written always equals
the current DDL, so the third staleness condition never fires. -/
theorem syncLoop_no_tasks (rows : List CatalogRow) (fs : MirrorFS)
    (h : ∀ r ∈ rows, previewOkNonSentinel (fs (keyOf r)) = true) :
    (syncLoop true fs rows).2 = [] := by
  induction rows generalizing fs with
  | nil => rfl
  | cons r rs ih =>
    have hr := h r (List.mem_cons_self r rs)
    have hstep : (syncStep true fs r).2 = none := by
      unfold syncStep
      unfold previewOkNonSentinel at hr
      cases hp : (fs (keyOf r)).preview with
      | none => rw [hp] at hr; simp at hr
      | some p =>
        rw [hp] at hr
        simp only [Bool.not_eq_true'] at hr
        simp [should_update_preview, hp, hr]
    show (match (syncStep true fs r).2 with
      | some k => k :: (syncLoop true (syncStep true fs r).1 rs).2
      | none => (syncLoop true (syncStep true fs r).1 rs).2) = []
    rw [hstep]
    refine ih _ (fun r' hr' => ?_)
    have hm := h r' (List.mem_cons_of_mem r hr')
    unfold previewOkNonSentinel at hm ⊢
    rw [syncStep_preview]
    exact hm

/-- Totality of the leaderboard comparison. -/
theorem leaderboardLe_total (a b : TableInfo) :
    (leaderboardLe a b || leaderboardLe b a) = true := by
  unfold leaderboardLe
  rcases lt_trichotomy a.total_queries b.total_queries with h | h | h
  · simp [h]
  · rcases lexLe_total a.full_table_name b.full_table_name with hl | hl <;> simp [h, hl]
  · simp [h]

/-- Transitivity of the leaderboard comparison. -/
theorem leaderboardLe_trans (a b c : TableInfo) (h1 : leaderboardLe a b = true)
    (h2 : leaderboardLe b c = true) : leaderboardLe a c = true := by
  unfold leaderboardLe at h1 h2 ⊢
  simp only [Bool.or_eq_true, Bool.and_eq_true, decide_eq_true_eq] at h1 h2 ⊢
  rcases h1 with h1 | ⟨h1e, h1l⟩
  · rcases h2 with h2 | ⟨h2e, h2l⟩
    · exact Or.inl (lt_trans h2 h1)
    · exact Or.inl (h2e ▸ h1)
  · rcases h2 with h2 | ⟨h2e, h2l⟩
    · exact Or.inl (h1e ▸ h2)
    · exact Or.inr ⟨h1e.trans h2e, lexLe_trans _ _ _ h1l h2l⟩

/-- Mutual comparability in both directions forces equal sort keys. -/
theorem leaderboardLe_key_antisymm (a b : TableInfo) (h1 : leaderboardLe a b = true)
    (h2 : leaderboardLe b a = true) :
    a.total_queries = b.total_queries ∧ a.full_table_name = b.full_table_name := by
  unfold leaderboardLe at h1 h2
  simp only [Bool.or_eq_true, Bool.and_eq_true, decide_eq_true_eq] at h1 h2
  rcases h1 with h1 | ⟨h1e, h1l⟩
  · rcases h2 with h2 | ⟨h2e, h2l⟩
    · exact absurd (lt_trans h1 h2) (lt_irrefl _)
    · exact absurd h1 (h2e ▸ lt_irrefl _)
  · rcases h2 with h2 | ⟨h2e, h2l⟩
    · exact absurd h2 (h1e ▸ lt_irrefl _)
    · exact ⟨h1e, lexLe_antisymm _ _ h1l h2l⟩

/-- C1: the claim says a table whose persisted `ddl.sql` differs from the
current `definition_text` has its preview refresh enqueued, with the
staleness decision evaluated on the pre-overwrite schema content.  The
code instead writes `ddl.sql` first (line 366) and only then calls
`should_update_preview` (line 377), so the comparison always sees the
freshly written DDL: at a state whose persisted DDL differs from the
current one and whose preview is present and non-sentinel, the run
enqueues nothing, even though the staleness decision evaluated on the
pre-overwrite values returns true. -/
theorem c1_schema_change_preview_not_refreshed :
    (syncLoop true
      (fun _ => ⟨some "OLD DDL".toList, some "-- Preview of table: p.d.t".toList⟩)
      [⟨"p".toList, "d".toList, "t".toList, "t".toList, "NEW DDL".toList⟩]).2 = []
    ∧ should_update_preview (some "OLD DDL".toList)
        (some "-- Preview of table: p.d.t".toList) (pyStrip "NEW DDL".toList) = true
    ∧ pyStrip "OLD DDL".toList ≠ pyStrip "NEW DDL".toList := by decide

/-- C2 (amended): the schema-definition artifact is written with the
entry's `definition_text` stripped of leading and trailing whitespace
(`str(row["ddl"]).strip()`, line 347), not verbatim. -/
theorem c2_ddl_written_stripped (ep : Bool) (fs : MirrorFS) (r : CatalogRow) :
    ((syncStep ep fs r).1 (keyOf r)).ddl = some (pyStrip r.ddl) := by
  unfold syncStep updateFS
  simp

/-- C2 counterexample: for a `definition_text` ending in a newline, the
written `ddl.sql` content is not character-for-character equal to it. -/
theorem c2_ddl_not_verbatim :
    ((syncStep true (fun _ => emptyDir)
        ⟨"p".toList, "d".toList, "t".toList, "t".toList,
         "CREATE TABLE t (x INT64)\n".toList⟩).1
      (keyOf ⟨"p".toList, "d".toList, "t".toList, "t".toList,
         "CREATE TABLE t (x INT64)\n".toList⟩)).ddl
      = some "CREATE TABLE t (x INT64)".toList
    ∧ "CREATE TABLE t (x INT64)".toList ≠ "CREATE TABLE t (x INT64)\n".toList := by
  decide

/-- C4 (amended): when the remote catalog fetch fails, the run performs no
catalog-wide filesystem mutation and enqueues nothing — but it exits with
code 0, because `create_table_structure` catches the error and returns
(lines 311-313) and `main` then returns 0 (line 471). -/
theorem c4_fetch_failure_no_mutation (ep : Bool) (fs : MirrorFS)
    (fetch : TableKey → Str) : buildMirror .failure ep fs fetch = ⟨fs, [], 0⟩ := rfl

/-- C4 counterexample: on fetch failure the exit code is 0, not non-zero
as the claim states. -/
theorem c4_fetch_failure_exit_zero :
    (buildMirror .failure true (fun _ => emptyDir) (fun _ => [])).exitCode = 0 := rfl

/-- C5 (amended): `should_update_preview` returns true whenever the preview
artifact is absent, or its content begins with the error sentinel, or the
persisted `ddl.sql` content differs from the current `definition_text`
after stripping leading/trailing whitespace from both sides of the
comparison. -/
theorem c5_staleness_conditions (ddlContent previewContent : Option Str)
    (current_ddl : Str)
    (h : previewContent = none
      ∨ (∃ p, previewContent = some p ∧ errorSentinel <+: p)
      ∨ (∃ d, ddlContent = some d ∧ pyStrip d ≠ pyStrip current_ddl)) :
    should_update_preview ddlContent previewContent current_ddl = true := by
  rcases h with h | ⟨p, hp, hpre⟩ | ⟨d, hd, hne⟩
  · rw [h]; rfl
  · rw [hp]
    simp only [should_update_preview]
    rw [if_pos (sentinel_prefix_pyStrip hpre)]
  · rw [hd]
    cases previewContent with
    | none => rfl
    | some p =>
      simp only [should_update_preview]
      by_cases hs : errorSentinel.isPrefixOf (pyStrip p) = true
      · rw [if_pos hs]
      · rw [if_neg hs, if_pos hne]

/-- C5 witness: a persisted DDL differing from the current one (beyond
whitespace) makes the decision true. -/
theorem c5_staleness_conditions_witness :
    should_update_preview (some "CREATE A".toList) (some "-- fine".toList)
      "CREATE B".toList = true :=
  c5_staleness_conditions _ _ _
    (Or.inr (Or.inr ⟨"CREATE A".toList, rfl, by decide⟩))

/-- C5 counterexample: a persisted `ddl.sql` whose raw content differs from
the current `definition_text` only by trailing whitespace does not trigger
a refresh — the code compares stripped contents, so the claim's literal
third observation (raw content difference) does not imply a true result. -/
theorem c5_whitespace_ddl_diff_no_refresh :
    should_update_preview (some "CREATE A ".toList) (some "-- fine".toList)
      "CREATE A".toList = false
    ∧ "CREATE A ".toList ≠ "CREATE A".toList := by decide

/-- C6: running the mirror build a second time with identical catalog
content, after a first run that left a preview artifact whose stripped
content does not begin with the error sentinel for every table, enqueues
zero preview-fetch tasks. -/
theorem c6_second_run_zero_tasks (fs0 : MirrorFS) (rows : List CatalogRow)
    (fetch fetch2 : TableKey → Str)
    (h : ∀ r ∈ rows, previewOkNonSentinel
        ((buildMirror (.success rows) true fs0 fetch).fs (keyOf r)) = true) :
    (buildMirror (.success rows) true
      ((buildMirror (.success rows) true fs0 fetch).fs) fetch2).tasks = [] := by
  cases rows with
  | nil => rfl
  | cons r rs =>
    show (syncLoop true ((buildMirror (.success (r :: rs)) true fs0 fetch).fs)
        (r :: rs)).2 = []
    exact syncLoop_no_tasks _ _ h

/-- C6 witness: a concrete first run from an empty mirror whose preview
fetch succeeds, followed by a second run enqueueing nothing. -/
theorem c6_second_run_zero_tasks_witness :
    (∀ r ∈ [(⟨"p".toList, "d".toList, "a".toList, "a".toList, "D_A".toList⟩ :
          CatalogRow)],
        previewOkNonSentinel
          ((buildMirror
              (.success [⟨"p".toList, "d".toList, "a".toList, "a".toList,
                "D_A".toList⟩]) true (fun _ => emptyDir)
              (fun _ => "-- Preview of table: p.d.a".toList)).fs (keyOf r)) = true)
    ∧ (buildMirror
        (.success [⟨"p".toList, "d".toList, "a".toList, "a".toList, "D_A".toList⟩])
        true
        ((buildMirror
            (.success [⟨"p".toList, "d".toList, "a".toList, "a".toList,
              "D_A".toList⟩]) true (fun _ => emptyDir)
            (fun _ => "-- Preview of table: p.d.a".toList)).fs)
        (fun _ => "-- Preview of table: p.d.a".toList)).tasks = [] :=
  ⟨by decide, c6_second_run_zero_tasks _ _ _ _ (by decide)⟩

/-- C7 (amended): every non-null field value whose string form exceeds the
cap, or whose declared type is GEOGRAPHY or GEOMETRY, is rendered as an
at-most-cap-length prefix followed by the truncation marker; the number of
rendered body rows always equals the row count declared in the artifact
header. -/
theorem c7_truncation_and_row_count (cap : ℕ) (s field_type : Str)
    (field_types : List Str) (rows : List (List (Option Str)))
    (h : field_type = "GEOGRAPHY".toList ∨ field_type = "GEOMETRY".toList
      ∨ s.length > cap) :
    (format_preview_value (some s) field_type cap
        = s.take cap ++ "... [TRUNCATED]".toList
      ∧ (s.take cap).length ≤ cap)
    ∧ (previewDataLines field_types rows).length = rows.length
    ∧ previewShownLine rows
        = "-- Showing first ".toList
          ++ Nat.toDigits 10 (previewDataLines field_types rows).length
          ++ " rows".toList := by
  refine ⟨⟨?_, ?_⟩, ?_, ?_⟩
  · simp only [format_preview_value]
    rw [if_pos h]
  · simp [List.length_take]
  · simp [previewDataLines]
  · simp [previewShownLine, previewDataLines]

/-- C7 witness: a five-character value at cap 3 is truncated and marked. -/
theorem c7_truncation_and_row_count_witness :
    format_preview_value (some "abcde".toList) "STRING".toList 3
      = "abc... [TRUNCATED]".toList :=
  ((c7_truncation_and_row_count 3 "abcde".toList "STRING".toList [] []
    (Or.inr (Or.inr (by decide)))).1.1)

/-- C7 counterexample: a NULL value of declared type GEOGRAPHY is rendered
as `NULL` with no truncation marker, because the None check precedes the
type check (lines 107-108). -/
theorem c7_null_geography_not_truncated :
    format_preview_value none "GEOGRAPHY".toList 100 = "NULL".toList
    ∧ ¬ ("... [TRUNCATED]".toList <:+ "NULL".toList) := by decide

/-- C3 (amended): the leaderboard document is built from all usage records
carrying a `total_queries` field, with no restriction on directory
existence, and is saved before any directory check; only the per-table
`usage.sql` writes are gated on the table directory existing. -/
theorem c3_leaderboard_unrestricted (dirExists : TableKey → Bool)
    (baseExists : Bool) (data : List UsageRec) :
    (process_usage_data dirExists baseExists data).leaderboardDoc
        = save_high_usage_tables_list (create_high_usage_tables_list data)
    ∧ (∀ k c, (k, c) ∈ (process_usage_data dirExists baseExists data).writes →
        dirExists k = true)
    ∧ (∀ r ∈ data, ∀ n, r.total_queries = some n →
        mkTableInfo r n ∈ create_high_usage_tables_list data) := by
  refine ⟨?_, ?_, ?_⟩
  · cases baseExists <;> rfl
  · intro k c hm
    unfold process_usage_data at hm
    cases baseExists with
    | false => simp at hm
    | true =>
      simp only [if_pos] at hm
      obtain ⟨r, _, hif⟩ := List.mem_filterMap.mp hm
      by_cases hd : dirExists (dirKeyOfRec r) = true
      · rw [if_pos hd] at hif
        have hk : dirKeyOfRec r = k := congrArg Prod.fst (Option.some.inj hif)
        rw [← hk]
        exact hd
      · rw [if_neg hd] at hif
        exact absurd hif (Option.noConfusion)
  · intro r hr n hn
    unfold create_high_usage_tables_list
    rw [(List.mergeSort_perm _ leaderboardLe).mem_iff]
    exact List.mem_filterMap.mpr ⟨r, hr, by rw [hn]; rfl⟩

/-- C3 witness: a record with a `total_queries` field is in the leaderboard
set even when no table directory exists. -/
theorem c3_leaderboard_unrestricted_witness :
    mkTableInfo ⟨"p".toList, "d".toList, "t".toList, [], some 5⟩ 5
      ∈ create_high_usage_tables_list
        [⟨"p".toList, "d".toList, "t".toList, [], some 5⟩] :=
  (c3_leaderboard_unrestricted (fun _ => false) true
      [⟨"p".toList, "d".toList, "t".toList, [], some 5⟩]).2.2
    ⟨"p".toList, "d".toList, "t".toList, [], some 5⟩ (by simp) 5 rfl

/-- C3 counterexample: a usage record whose table directory is absent
(`dirExists` is constantly false) still appears as a rendered line of the
leaderboard document, while its `usage.sql` write is skipped. -/
theorem c3_absent_dir_in_leaderboard :
    leaderboardEntryLine 1
        (mkTableInfo ⟨"p".toList, "d".toList, "t".toList, [], some 5⟩ 5)
      ∈ (process_usage_data (fun _ => false) true
          [⟨"p".toList, "d".toList, "t".toList, [], some 5⟩]).leaderboardDoc
    ∧ (fun (_ : TableKey) => false)
        (dirKeyOfRec ⟨"p".toList, "d".toList, "t".toList, [], some 5⟩) = false
    ∧ (process_usage_data (fun _ => false) true
        [⟨"p".toList, "d".toList, "t".toList, [], some 5⟩]).writes = [] := by
  have h1 : create_high_usage_tables_list
      [⟨"p".toList, "d".toList, "t".toList, [], some 5⟩]
      = [mkTableInfo ⟨"p".toList, "d".toList, "t".toList, [], some 5⟩ 5] := by
    unfold create_high_usage_tables_list
    simp [List.filterMap, Option.map, List.mergeSort_singleton]
  refine ⟨?_, rfl, ?_⟩
  · unfold process_usage_data
    rw [if_pos rfl]
    simp only [h1]
    unfold save_high_usage_tables_list leaderboardDisplayed
    simp [leaderboardNumberLines]
  · unfold process_usage_data
    rw [if_pos rfl]
    simp

/-- C8: the leaderboard ordering is total and transitive; between records
with different counts the larger count sorts first, ties are ordered by
ascending full table name, mutual comparability forces equal sort keys,
the produced list is sorted, and the displayed portion is an order-
preserving prefix of at most 200 entries. -/
theorem c8_leaderboard_total_order (data : List UsageRec) (a b : TableInfo) :
    List.Pairwise (fun x y => leaderboardLe x y = true)
        (create_high_usage_tables_list data)
    ∧ (leaderboardLe a b || leaderboardLe b a) = true
    ∧ (a.total_queries ≠ b.total_queries →
        (leaderboardLe a b = true ↔ b.total_queries < a.total_queries))
    ∧ (a.total_queries = b.total_queries →
        (leaderboardLe a b = true ↔ lexLe a.full_table_name b.full_table_name = true))
    ∧ (leaderboardLe a b = true → leaderboardLe b a = true →
        a.total_queries = b.total_queries ∧ a.full_table_name = b.full_table_name)
    ∧ leaderboardDisplayed (create_high_usage_tables_list data)
        <+: create_high_usage_tables_list data
    ∧ (leaderboardDisplayed (create_high_usage_tables_list data)).length ≤ 200 := by
  refine ⟨?_, leaderboardLe_total a b, ?_, ?_, leaderboardLe_key_antisymm a b, ?_, ?_⟩
  · exact List.sorted_mergeSort leaderboardLe_trans leaderboardLe_total _
  · intro h
    simp [leaderboardLe, h]
  · intro h
    simp [leaderboardLe, h, lt_irrefl]
  · exact List.take_prefix _ _
  · exact List.length_take_le _ _

/-- C8 witness: a larger count sorts before a smaller one, and equal counts
are ordered by ascending full table name. -/
theorem c8_leaderboard_total_order_witness :
    leaderboardLe ⟨"p".toList, "d".toList, "a".toList, 5, "p.d.a".toList⟩
        ⟨"p".toList, "d".toList, "b".toList, 3, "p.d.b".toList⟩ = true
    ∧ leaderboardLe ⟨"p".toList, "d".toList, "a".toList, 3, "p.d.a".toList⟩
        ⟨"p".toList, "d".toList, "b".toList, 3, "p.d.b".toList⟩ = true :=
  ⟨((c8_leaderboard_total_order []
        ⟨"p".toList, "d".toList, "a".toList, 5, "p.d.a".toList⟩
        ⟨"p".toList, "d".toList, "b".toList, 3, "p.d.b".toList⟩).2.2.1
      (by decide)).mpr (by decide),
   ((c8_leaderboard_total_order []
        ⟨"p".toList, "d".toList, "a".toList, 3, "p.d.a".toList⟩
        ⟨"p".toList, "d".toList, "b".toList, 3, "p.d.b".toList⟩).2.2.2.1
      (by decide)).mpr (by decide)⟩

/-- C9: with gating enabled (`--force` absent), the confirmation prompt is
triggered exactly when the dry-run estimate exceeds 100 GB, and a declined
confirmation reaches `sys.exit(0)`: exit code 0, no execution, no results
file, no diagnostics artifact. -/
theorem c9_query_gate (bytes_processed : Nat) (hasOutputFile : Bool)
    (responses : List Str) :
    ((ask_user_confirmation (gb_processed bytes_processed) responses).1 = true
      ↔ gb_processed bytes_processed > 100)
    ∧ ((ask_user_confirmation (gb_processed bytes_processed) responses).2
          = some false →
        runQueryMain false bytes_processed hasOutputFile responses
          = some ⟨0, false, false, false⟩) := by
  constructor
  · unfold ask_user_confirmation
    by_cases h : gb_processed bytes_processed > 100
    · simp [h]
    · simp [h]
  · intro h
    unfold runQueryMain
    rw [if_neg (by simp)]
    rw [h]

/-- C9 witness: a 150 GB estimate triggers the gate and a typed `n` yields
the clean zero-exit abort with nothing written. -/
theorem c9_query_gate_witness :
    gb_processed (150 * 2 ^ 30) > 100
    ∧ (ask_user_confirmation (gb_processed (150 * 2 ^ 30)) ["n".toList]).2
        = some false
    ∧ runQueryMain false (150 * 2 ^ 30) true ["n".toList]
        = some ⟨0, false, false, false⟩ := by
  have hgb : gb_processed (150 * 2 ^ 30) > 100 := by
    unfold gb_processed
    norm_num
  have hask : (ask_user_confirmation (gb_processed (150 * 2 ^ 30)) ["n".toList]).2
      = some false := by
    unfold ask_user_confirmation
    rw [if_pos hgb]
    decide
  exact ⟨hgb, hask, (c9_query_gate (150 * 2 ^ 30) true ["n".toList]).2 hask⟩

/-- C10: a successful fetch of an empty table writes the fixed no-data
content, which does not begin with the error sentinel, and as long as the
schema definition is unchanged (equal after the code's stripping) the
staleness decision for that preview is false on subsequent runs. -/
theorem c10_empty_preview_stable (table_id : Str) (num_rows : Nat)
    (schema : List (Str × Str)) (excText : Str) (p d : Str)
    (h : pyStrip p = pyStrip d) :
    get_table_preview table_id num_rows schema [] excText = noDataContent
    ∧ errorSentinel.isPrefixOf noDataContent = false
    ∧ should_update_preview (some p) (some noDataContent) d = false := by
  refine ⟨rfl, by decide, ?_⟩
  simp only [should_update_preview]
  rw [if_neg (by decide)]
  rw [if_neg (by simp [h])]

/-- C10 witness: an empty table's preview with an unchanged DDL is never
refetched. -/
theorem c10_empty_preview_stable_witness :
    get_table_preview "p.d.t".toList 0 [] [] "e".toList = noDataContent
    ∧ errorSentinel.isPrefixOf noDataContent = false
    ∧ should_update_preview (some "CREATE T".toList) (some noDataContent)
        "CREATE T".toList = false :=
  c10_empty_preview_stable "p.d.t".toList 0 [] "e".toList
    "CREATE T".toList "CREATE T".toList rfl
